import Mathlib

/-
Verification of the Ethos85 log-analysis engine (src/src/utils/csvParser.js).

The JavaScript source is shallowly embedded over exact rational arithmetic:
a missing or unparseable cell (JS NaN) is `none : Option ℚ`, a parsed cell
is `some v`.  JS `Number.toFixed(n)` followed by `parseFloat` (the source's
`roundN`) is modelled as rounding to n decimal digits; none of the values
exercised by the analysis sit on a rounding tie, and all constants in the
source are exact decimals, so the rational model agrees with IEEE doubles
on every comparison performed by the code.
-/

attribute [local semireducible] Rat.ofScientific Rat.mul Rat.inv Rat.add Rat.sub

set_option maxRecDepth 100000

namespace Ethos

/-! ## Safety status and aggregation (worstStatus, csvParser.js lines 193-199) -/

/-- Metric safety status.  In the source these are the strings
"Safe" / "Caution" / "Risk". -/
inductive Status where
  | Safe
  | Caution
  | Risk
deriving DecidableEq, Repr, Fintype

/-- STATUS_RANK lookup table: Safe 0, Caution 1, Risk 2. -/
def STATUS_RANK : Status → ℕ
  | .Safe => 0
  | .Caution => 1
  | .Risk => 2

/-- One reducer step of worstStatus: keep the higher-ranked status,
the accumulator winning ties (rank(s) > rank(worst) ? s : worst). -/
def worstStep (worst s : Status) : Status :=
  if STATUS_RANK worst < STATUS_RANK s then s else worst

/-- worstStatus: fold of the reducer over the argument list starting from
Safe.  The source first drops null entries with filter(Boolean); the call
site always passes four non-null statuses, so the embedding takes the
statuses directly. -/
def worstStatus (statuses : List Status) : Status :=
  statuses.foldl worstStep Status.Safe

/-! ## Numeric helpers -/

/-- Rounding of a rational to the nearest integer, half-values going up;
written with the explicit numerator/denominator Euclidean division of the
floor so that it evaluates inside the kernel.  Agrees with Mathlib round
(jsRound_eq below). -/
def jsRound (q : ℚ) : ℤ :=
  (q + 1 / 2).num / (q + 1 / 2).den

theorem jsRound_eq (q : ℚ) : jsRound q = round q := by
  rw [jsRound, ← Rat.floor_def, round_eq]

/-- roundN(v, n) = parseFloat(v.toFixed(n)): round to n decimal digits. -/
def roundN (v : ℚ) (n : ℕ) : ℚ :=
  (jsRound (v * 10 ^ n) : ℚ) / 10 ^ n

/-- A parsed CSV row: association list from header name to the parsed
numeric value of the cell (none when the cell is missing, empty, or fails
parseFloat — the JS NaN cases). -/
abbrev Row := List (String × Option ℚ)

/-- num(row, col): NaN when the column is unresolved, the header is absent
from the row, or the cell is empty/unparseable; otherwise the parsed value. -/
def num (row : Row) (col : Option String) : Option ℚ :=
  match col with
  | none => none
  | some c =>
    match row.lookup c with
    | none => none
    | some v => v

/-- lambdaToAfr(lambda) = lambda * 14.7. -/
def lambdaToAfr (lambda : ℚ) : ℚ := lambda * 14.7

/-- Boost unit as detected from the CSV header / sampled values. -/
inductive BoostUnit where
  | psi
  | bar
  | kpa
deriving DecidableEq, Repr

/-- normalizeBoostToPsi: bar × 14.5038, kPa × 0.14504, psi unchanged;
NaN propagates. -/
def normalizeBoostToPsi (v : Option ℚ) (unit : BoostUnit) : Option ℚ :=
  v.map fun x =>
    match unit with
    | .bar => x * 14.5038
    | .kpa => x * 0.14504
    | .psi => x

/-! ## Constants (csvParser.js lines 166-189) -/

def LOAD_DEMAND : ℚ := 50
def LOAD_WOT : ℚ := 70
def BOOST_DEMAND : ℚ := 2
def BOOST_WOT : ℚ := 8
def LOAD_TIMING : ℚ := 40

def AFR_LEAN_RISK : ℚ := 13.8
def AFR_LEAN_CAUTION : ℚ := 13.0
def AFR_RICH_RISK : ℚ := 10.0
def AFR_RICH_CAUTION : ℚ := 10.8

def HPFP_DROP_RISK_PCT : ℚ := 20
def HPFP_DROP_CAUTION_PCT : ℚ := 10

def IAT_RISK_F : ℚ := 140
def IAT_CAUTION_F : ℚ := 120

def TIMING_RISK_DEG : ℚ := -4.0
def TIMING_CAUTION_DEG : ℚ := -2.0

def FUEL_CUT_AFR : ℚ := 16.5

/-! ## Threshold calculator (getAfrThresholds, csvParser.js lines 218-229) -/

/-- Ethanol-adjusted AFR thresholds. -/
structure Thresholds where
  stoich : ℚ
  lean_risk : ℚ
  lean_caution : ℚ
  rich_risk : ℚ
  rich_caution : ℚ
deriving DecidableEq, Repr

/-- getAfrThresholds.  The guard Number(ethanolPercent) || 10 yields 10
when the input is absent or not numeric (modelled as none) and ALSO when
the input is the number 0, since 0 is falsy in JavaScript; any other
value passes through and is then clamped to the interval from 0 to 85. -/
def getAfrThresholds (ethanolPercent : Option ℚ) : Thresholds :=
  let raw : ℚ :=
    match ethanolPercent with
    | none => 10
    | some q => if q = 0 then 10 else q
  let e : ℚ := min 85 (max 0 raw)
  let stoich : ℚ := roundN (14.7 - (14.7 - 9.8) * (e / 85)) 2
  let r : ℚ := stoich / 14.7
  { stoich := stoich
    lean_risk := roundN (AFR_LEAN_RISK * r) 2
    lean_caution := roundN (AFR_LEAN_CAUTION * r) 2
    rich_risk := roundN (AFR_RICH_RISK * r) 2
    rich_caution := roundN (AFR_RICH_CAUTION * r) 2 }

/-! ## Row regime classification (isDemand / isWot, csvParser.js lines 231-254) -/

/-- isDemand(load, boost, pedal, throttle): the lift override
(!isNaN(p) && p < 1 && (!isNaN(t) ? t < 5 : true)) forces false, otherwise
load ≥ 50 or boost > 2 with NaN load/boost read as 0. -/
def isDemand (load boost pedal throttle : Option ℚ) : Bool :=
  if (match pedal with
      | some p => decide (p < 1) &&
          (match throttle with
           | some t => decide (t < 5)
           | none => true)
      | none => false) then
    false
  else
    decide (LOAD_DEMAND ≤ load.getD 0) || decide (BOOST_DEMAND < boost.getD 0)

/-- isWot(load, boost, pedal, throttle): pedal present and < 50 forces
false, then throttle present and < 30 forces false, otherwise load ≥ 70 or
boost > 8 with NaN load/boost read as 0. -/
def isWot (load boost pedal throttle : Option ℚ) : Bool :=
  if (match pedal with
      | some p => decide (p < 50)
      | none => false) then
    false
  else if (match throttle with
      | some t => decide (t < 30)
      | none => false) then
    false
  else
    decide (LOAD_WOT ≤ load.getD 0) || decide (BOOST_WOT < boost.getD 0)

/-- Resolved column mapping: semantic channel to CSV header, none when the
channel did not resolve. -/
structure Columns where
  time : Option String := none
  rpm : Option String := none
  load : Option String := none
  afr : Option String := none
  boost : Option String := none
  iat : Option String := none
  hpfp : Option String := none
  hpfp_target : Option String := none
  afr_target : Option String := none
  pedal : Option String := none
  throttle : Option String := none
deriving DecidableEq, Repr

/-- Regime inputs of one row under a column mapping, as read at the top of
every analyzer loop. -/
def rowDemand (cols : Columns) (u : BoostUnit) (r : Row) : Bool :=
  isDemand (num r cols.load) (normalizeBoostToPsi (num r cols.boost) u)
    (num r cols.pedal) (num r cols.throttle)

def rowWot (cols : Columns) (u : BoostUnit) (r : Row) : Bool :=
  isWot (num r cols.load) (normalizeBoostToPsi (num r cols.boost) u)
    (num r cols.pedal) (num r cols.throttle)

/-! ## Lemmas about worstStatus -/

theorem rank_le_worstStep_left : ∀ a b : Status,
    STATUS_RANK a ≤ STATUS_RANK (worstStep a b) := by decide

theorem rank_le_worstStep_right : ∀ a b : Status,
    STATUS_RANK b ≤ STATUS_RANK (worstStep a b) := by decide

theorem foldl_worstStep_mem (l : List Status) (i : Status) :
    l.foldl worstStep i = i ∨ l.foldl worstStep i ∈ l := by
  induction l generalizing i with
  | nil => exact Or.inl rfl
  | cons a t ih =>
    rw [List.foldl_cons]
    rcases ih (worstStep i a) with h | h
    · rw [h]
      unfold worstStep
      split
      · exact Or.inr (List.mem_cons_self a t)
      · exact Or.inl rfl
    · exact Or.inr (List.mem_cons_of_mem a h)

theorem foldl_worstStep_init_le (l : List Status) (i : Status) :
    STATUS_RANK i ≤ STATUS_RANK (l.foldl worstStep i) := by
  induction l generalizing i with
  | nil => exact le_refl _
  | cons a t ih =>
    rw [List.foldl_cons]
    exact le_trans (rank_le_worstStep_left i a) (ih _)

theorem foldl_worstStep_elem_le (l : List Status) (i : Status) :
    ∀ s ∈ l, STATUS_RANK s ≤ STATUS_RANK (l.foldl worstStep i) := by
  induction l generalizing i with
  | nil => intro s hs; cases hs
  | cons a t ih =>
    intro s hs
    rw [List.foldl_cons]
    rcases List.mem_cons.mp hs with rfl | hs
    · exact le_trans (rank_le_worstStep_right i s) (foldl_worstStep_init_le t _)
    · exact ih _ s hs

/-- C7: the worstStatus reducer is commutative, associative and idempotent
over the status set, Safe is a two-sided identity, each application
realises the rank maximum of its two arguments and returns one of them
(so worstStep is exactly the maximum under Safe < Caution < Risk), and the
n-ary worstStatus fold returns a status of maximal rank drawn from its
argument list (or Safe for the empty list). -/
theorem c7_worstStatus_algebra :
    (∀ a b : Status, worstStep a b = worstStep b a) ∧
    (∀ a b c : Status, worstStep (worstStep a b) c = worstStep a (worstStep b c)) ∧
    (∀ a : Status, worstStep a a = a) ∧
    (∀ a : Status, worstStep Status.Safe a = a ∧ worstStep a Status.Safe = a) ∧
    (∀ a b : Status, STATUS_RANK (worstStep a b) = max (STATUS_RANK a) (STATUS_RANK b) ∧
      (worstStep a b = a ∨ worstStep a b = b)) ∧
    (∀ l : List Status,
      (∀ s ∈ l, STATUS_RANK s ≤ STATUS_RANK (worstStatus l)) ∧
      (worstStatus l = Status.Safe ∨ worstStatus l ∈ l)) := by
  refine ⟨by decide, by decide, by decide, by decide, by decide, fun l => ⟨?_, ?_⟩⟩
  · exact foldl_worstStep_elem_le l Status.Safe
  · exact foldl_worstStep_mem l Status.Safe

/-- Witness for c7_worstStatus_algebra: the list membership hypothesis is
satisfiable and the bound holds on a concrete list. -/
theorem c7_worstStatus_algebra_witness :
    Status.Risk ∈ [Status.Caution, Status.Risk] ∧
    STATUS_RANK Status.Risk ≤ STATUS_RANK (worstStatus [Status.Caution, Status.Risk]) :=
  ⟨by decide,
   (c7_worstStatus_algebra.2.2.2.2.2 [Status.Caution, Status.Risk]).1 Status.Risk (by decide)⟩

/-! ## C2: the Demand classification -/

/-- C2 (amended): Demand is true exactly when load ≥ 50 or boost > 2 psi
(missing load/boost read as 0), except that when pedal is present with
pedal < 1 and throttle is either absent or < 5 the classification is
forced false; in the source the throttle-absent case also triggers the
lift override, not only the both-present case. -/
theorem c2_isDemand_characterization (load boost pedal throttle : Option ℚ) :
    isDemand load boost pedal throttle = true ↔
      ((LOAD_DEMAND ≤ load.getD 0 ∨ BOOST_DEMAND < boost.getD 0) ∧
        ¬ ∃ p, pedal = some p ∧ p < 1 ∧
            (throttle = none ∨ ∃ t, throttle = some t ∧ t < 5)) := by
  cases pedal with
  | none => simp [isDemand]
  | some p =>
    cases throttle with
    | none =>
      by_cases hp : p < 1 <;> simp [isDemand, hp]
    | some t =>
      by_cases hp : p < 1 <;> by_cases ht : t < 5 <;> simp [isDemand, hp, ht]

/-- Witness instantiating c2_isDemand_characterization at a concrete row:
load 80 with no pedal or throttle data is Demand. -/
theorem c2_isDemand_characterization_witness :
    isDemand (some 80) none none none = true ↔
      ((LOAD_DEMAND ≤ (some (80 : ℚ)).getD 0 ∨ BOOST_DEMAND < (none : Option ℚ).getD 0) ∧
        ¬ ∃ p, (none : Option ℚ) = some p ∧ p < 1 ∧
            ((none : Option ℚ) = none ∨ ∃ t, (none : Option ℚ) = some t ∧ t < 5)) :=
  c2_isDemand_characterization (some 80) none none none

/-- C2 is false as stated: a row with load 80, pedal 0.5 and no throttle
channel has pedal and throttle not both present, so the claimed rule gives
Demand (load ≥ 50), yet the code returns false — the lift override also
fires when throttle is absent. -/
theorem c2_counterexample :
    isDemand (some 80) none (some (1 / 2)) none = false ∧
    LOAD_DEMAND ≤ (some (80 : ℚ)).getD 0 ∧
    ¬ ∃ p t : ℚ, (some ((1 : ℚ) / 2)) = some p ∧ (none : Option ℚ) = some t ∧
        p < 1 ∧ t < 5 := by
  refine ⟨by decide, by decide, ?_⟩
  rintro ⟨p, t, -, ht, -⟩
  exact Option.noConfusion ht

/-! ## C1 / C8: the threshold calculator -/

theorem jsRound_lt_of_add_one_le {x y : ℚ} (h : x + 1 ≤ y) : jsRound x < jsRound y := by
  rw [jsRound_eq, jsRound_eq]
  have h2 : round (x + 1) ≤ round y := by
    rw [round_eq, round_eq]
    exact Int.floor_le_floor (by linarith)
  rw [round_add_one] at h2
  omega

/-- Closed form of stoich on an integer input between 1 and 85: the
JavaScript falsy-zero default and the clamp are both inactive there. -/
theorem stoich_nat_eq (a : ℕ) (h1 : 1 ≤ a) (h2 : a ≤ 85) :
    (getAfrThresholds (some (a : ℚ))).stoich
      = (jsRound ((14.7 - (14.7 - 9.8) * ((a : ℚ) / 85)) * 100) : ℚ) / 100 := by
  have hne : ¬ ((a : ℚ) = 0) := by
    rw [Nat.cast_eq_zero]
    omega
  have hmax : max (0 : ℚ) (a : ℚ) = (a : ℚ) := max_eq_right (Nat.cast_nonneg a)
  have hmin : min (85 : ℚ) (a : ℚ) = (a : ℚ) := min_eq_right (by exact_mod_cast h2)
  simp only [getAfrThresholds, roundN, if_neg hne, hmax, hmin]
  norm_num

/-- C1 (amended): the threshold calculator computes
stoich = roundN(14.7 − (14.7 − 9.8)·(e/85), 2) where e is the input
clamped to the interval from 0 to 85, except that an input equal to 0
(being falsy in JavaScript) is defaulted to 10 exactly like an absent or
invalid input; consequently stoich at input 0 equals stoich at input 10,
stoich is strictly decreasing over integer inputs from 1 to 85, equals
9.8 at input 85, and the value 14.7 is attained exactly by negative
inputs (which clamp to 0). -/
theorem c1_stoich_behavior :
    ((getAfrThresholds (some 0)).stoich = (getAfrThresholds none).stoich ∧
     (getAfrThresholds none).stoich = (getAfrThresholds (some 10)).stoich) ∧
    (∀ q : ℚ, q < 0 → (getAfrThresholds (some q)).stoich = 14.7) ∧
    (getAfrThresholds (some 85)).stoich = 9.8 ∧
    (∀ a b : ℕ, 1 ≤ a → a < b → b ≤ 85 →
      (getAfrThresholds (some (b : ℚ))).stoich < (getAfrThresholds (some (a : ℚ))).stoich) := by
  refine ⟨⟨by decide, by decide⟩, ?_, by decide, ?_⟩
  · intro q hq
    have hne : ¬ (q = 0) := ne_of_lt hq
    have hmax : max (0 : ℚ) q = 0 := max_eq_left hq.le
    simp only [getAfrThresholds, roundN, if_neg hne, hmax]
    decide
  · intro a b h1 hab h2
    have hb1 : 1 ≤ b := le_trans h1 hab.le
    rw [stoich_nat_eq a h1 (le_of_lt (lt_of_lt_of_le hab h2)), stoich_nat_eq b hb1 h2]
    have hcast : (a : ℚ) + 1 ≤ (b : ℚ) := by exact_mod_cast hab
    have hkey : jsRound ((14.7 - (14.7 - 9.8) * ((b : ℚ) / 85)) * 100)
        < jsRound ((14.7 - (14.7 - 9.8) * ((a : ℚ) / 85)) * 100) := by
      apply jsRound_lt_of_add_one_le
      linarith
    have : ((jsRound ((14.7 - (14.7 - 9.8) * ((b : ℚ) / 85)) * 100) : ℤ) : ℚ)
        < ((jsRound ((14.7 - (14.7 - 9.8) * ((a : ℚ) / 85)) * 100) : ℤ) : ℚ) := by
      exact_mod_cast hkey
    linarith

/-- Witness for c1_stoich_behavior at concrete inputs: negative input −1
gives 14.7 and stoich strictly decreases from input 10 to input 40. -/
theorem c1_stoich_behavior_witness :
    ((-1 : ℚ) < 0 ∧ (getAfrThresholds (some (-1))).stoich = 14.7) ∧
    (1 ≤ 10 ∧ 10 < 40 ∧ 40 ≤ 85 ∧
      (getAfrThresholds (some ((40 : ℕ) : ℚ))).stoich
        < (getAfrThresholds (some ((10 : ℕ) : ℚ))).stoich) :=
  ⟨⟨by norm_num, c1_stoich_behavior.2.1 (-1) (by norm_num)⟩,
   ⟨by decide, by decide, by decide,
    c1_stoich_behavior.2.2.2 10 40 (by decide) (by decide) (by decide)⟩⟩

/-- C1 is false as stated: ethanol input 0 is a valid, in-range input
(E0 pump gas), yet the code computes stoich 14.12 — the value for E10 —
not 14.7, because Number(x) || 10 treats the number 0 as absent. -/
theorem c1_counterexample :
    (getAfrThresholds (some 0)).stoich = 1412 / 100 ∧ ((1412 : ℚ) / 100) ≠ 14.7 := by
  exact ⟨by decide, by decide⟩

/-- C8 (amended): every lean-risk threshold is the E0 constant 13.8 scaled
by stoich/14.7 and then rounded to 2 decimal places; at ethanol 40 the
computed value is 11.63 (the unrounded product is about 11.6314). -/
theorem c8_lean_risk :
    (∀ eth : Option ℚ, (getAfrThresholds eth).lean_risk
        = roundN (13.8 * ((getAfrThresholds eth).stoich / 14.7)) 2) ∧
    (getAfrThresholds (some 40)).lean_risk = 1163 / 100 := by
  exact ⟨fun eth => rfl, by decide⟩

/-- C8 is false as stated: at ethanol 40 the code reports 11.63, which is
neither equal to the unrounded 13.8 × stoich/14.7 nor equal to the claimed
approximate value 11.62. -/
theorem c8_counterexample :
    (getAfrThresholds (some 40)).lean_risk = 1163 / 100 ∧
    13.8 * ((getAfrThresholds (some 40)).stoich / 14.7) ≠ 1163 / 100 ∧
    (getAfrThresholds (some 40)).lean_risk ≠ 1162 / 100 := by
  exact ⟨by decide, by decide, by decide⟩

/-! ## AFR analyzer (analyzeAfr, csvParser.js lines 258-344) -/

/-- Render a rational produced by roundN with at most two decimal digits
the way JavaScript template literals print such numbers: no decimal point
for integers and no trailing zero on the hundredths digit. -/
def qToString (q : ℚ) : String :=
  let sign := if q < 0 then "-" else ""
  let n : ℕ := q.num.natAbs
  let d : ℕ := q.den
  let ip : ℕ := n / d
  let hundredths : ℕ := n * 100 / d % 100
  if hundredths = 0 then sign ++ toString ip
  else if hundredths % 10 = 0 then sign ++ toString ip ++ "." ++ toString (hundredths / 10)
  else sign ++ toString ip ++ "." ++ (if hundredths < 10 then "0" else "") ++ toString hundredths

/-- Arithmetic mean of a nonempty sample list
(reduce((a, b) => a + b, 0) / length). -/
def listAvg (l : List ℚ) : ℚ := l.sum / l.length

/-- toAfr: raw column reading to AFR, times 14.7 when the column was
detected as lambda. -/
def toAfr (isLambdaAfr : Bool) (v : ℚ) : ℚ :=
  if isLambdaAfr then lambdaToAfr v else v

/-- Result record of analyzeAfr. -/
structure AfrResult where
  actual : Option ℚ
  target : Option ℚ
  lean_events : ℕ
  rich_events : ℕ
  status : Status
  note : Option String
deriving DecidableEq, Repr

/-- Accumulator of the row loop of analyzeAfr. -/
structure AfrState where
  status : Status := .Safe
  worstLean : Option ℚ := none
  leanEvents : ℕ := 0
  richEvents : ℕ := 0
  demandAfrSamples : List ℚ := []
  targetSamples : List ℚ := []
deriving DecidableEq, Repr

/-- Target-sample contribution of one row: push toAfr(rawTarget) when the
afr_target column resolved and the cell parses. -/
def afrTargetSample (cols : Columns) (isLambdaAfr : Bool) (r : Row) : List ℚ :=
  match cols.afr_target with
  | none => []
  | some tc =>
    match num r (some tc) with
    | none => []
    | some rawTarget => [toAfr isLambdaAfr rawTarget]

/-- One iteration of the row loop of analyzeAfr: skip unparseable AFR,
skip fuel-cut readings at or above 16.5, collect Demand samples, then run
the WOT lean/rich threshold chain in the source's fixed branch order. -/
def afrStep (cols : Columns) (isLambdaAfr : Bool) (th : Thresholds) (u : BoostUnit)
    (s : AfrState) (r : Row) : AfrState :=
  match num r cols.afr with
  | none => s
  | some rawAfr =>
    let afr := toAfr isLambdaAfr rawAfr
    if FUEL_CUT_AFR ≤ afr then s
    else
      let load := num r cols.load
      let boost := normalizeBoostToPsi (num r cols.boost) u
      let pedal := num r cols.pedal
      let throttle := num r cols.throttle
      let s1 :=
        if isDemand load boost pedal throttle then
          { s with demandAfrSamples := s.demandAfrSamples ++ [afr]
                   targetSamples := s.targetSamples ++ afrTargetSample cols isLambdaAfr r }
        else s
      if isWot load boost pedal throttle then
        if th.lean_risk < afr then
          { s1 with leanEvents := s1.leanEvents + 1
                    status := .Risk
                    worstLean := some (match s1.worstLean with
                      | none => afr
                      | some w => if w < afr then afr else w) }
        else if th.lean_caution < afr ∧ s1.status ≠ .Risk then
          { s1 with leanEvents := s1.leanEvents + 1
                    status := .Caution
                    worstLean := some (match s1.worstLean with
                      | none => afr
                      | some w => if w < afr then afr else w) }
        else if afr < th.rich_risk then
          { s1 with richEvents := s1.richEvents + 1, status := .Risk }
        else if afr < th.rich_caution ∧ s1.status ≠ .Risk then
          { s1 with richEvents := s1.richEvents + 1, status := .Caution }
        else s1
      else s1

/-- analyzeAfr: early return when the AFR column is unresolved, otherwise
fold the row loop and assemble the result record. -/
def analyzeAfr (rows : List Row) (cols : Columns) (isLambdaAfr : Bool)
    (th : Thresholds) (u : BoostUnit) : AfrResult :=
  match cols.afr with
  | none =>
    { actual := none, target := none, lean_events := 0, rich_events := 0,
      status := .Safe, note := some "AFR column not found in log." }
  | some _ =>
    let st := rows.foldl (afrStep cols isLambdaAfr th u) {}
    let avgDemandAfr : Option ℚ :=
      if st.demandAfrSamples.length ≠ 0 then some (listAvg st.demandAfrSamples) else none
    let avgTarget : Option ℚ :=
      if st.targetSamples.length ≠ 0 then some (listAvg st.targetSamples) else none
    let displayAfr : Option ℚ :=
      match st.worstLean with
      | some w => some w
      | none => avgDemandAfr
    let note : Option String :=
      if 0 < st.leanEvents then
        some (toString st.leanEvents ++ " lean event(s) at WOT — peak "
          ++ qToString (roundN (st.worstLean.getD 0) 2) ++ ":1.")
      else if 0 < st.richEvents then
        some (toString st.richEvents ++ " rich event(s) at WOT.")
      else none
    { actual := displayAfr.map (fun v => roundN v 2)
      target := avgTarget.map (fun v => roundN v 2)
      lean_events := st.leanEvents
      rich_events := st.richEvents
      status := st.status
      note := note }

/-- A fuel-cut row (converted AFR at or above 16.5) leaves the AFR loop
state unchanged. -/
theorem afrStep_fuelCut (cols : Columns) (lam : Bool) (th : Thresholds) (u : BoostUnit)
    (s : AfrState) (r : Row) (raw : ℚ) (hr : num r cols.afr = some raw)
    (hcut : FUEL_CUT_AFR ≤ toAfr lam raw) :
    afrStep cols lam th u s r = s := by
  unfold afrStep
  rw [hr]
  simp only [if_pos hcut]

/-- C3: a row whose converted AFR is at or above the fuel-cut threshold
16.5 is discarded entirely — removing it from any position of the row list
leaves the whole AFR result (lean events, rich events, Demand AFR average,
target average, status, note) unchanged, whatever the row's regime. -/
theorem c3_fuel_cut_excluded (rows1 rows2 : List Row) (r : Row) (cols : Columns)
    (lam : Bool) (th : Thresholds) (u : BoostUnit) (raw : ℚ)
    (hr : num r cols.afr = some raw) (hcut : FUEL_CUT_AFR ≤ toAfr lam raw) :
    analyzeAfr (rows1 ++ r :: rows2) cols lam th u
      = analyzeAfr (rows1 ++ rows2) cols lam th u := by
  have hfold : (rows1 ++ r :: rows2).foldl (afrStep cols lam th u) {}
      = (rows1 ++ rows2).foldl (afrStep cols lam th u) ({} : AfrState) := by
    rw [List.foldl_append, List.foldl_append, List.foldl_cons,
        afrStep_fuelCut cols lam th u _ r raw hr hcut]
  unfold analyzeAfr
  cases cols.afr with
  | none => rfl
  | some c => rw [hfold]

/-- Concrete columns resolving only the AFR channel. -/
def colsAfrOnly : Columns := { afr := some "afr" }

/-- Witness for c3_fuel_cut_excluded: a single row reading AFR 17 (at or
above 16.5) produces the same analysis as the empty log. -/
theorem c3_fuel_cut_excluded_witness :
    num [("afr", some (17 : ℚ))] colsAfrOnly.afr = some 17 ∧
    FUEL_CUT_AFR ≤ toAfr false 17 ∧
    analyzeAfr [[("afr", some (17 : ℚ))]] colsAfrOnly false (getAfrThresholds none) .psi
      = analyzeAfr [] colsAfrOnly false (getAfrThresholds none) .psi :=
  ⟨rfl, by decide,
   c3_fuel_cut_excluded [] [] [("afr", some (17 : ℚ))] colsAfrOnly false
     (getAfrThresholds none) .psi 17 rfl (by decide)⟩

/-! ## HPFP analyzer (analyzeHpfp, csvParser.js lines 348-422) -/

/-- Result record of analyzeHpfp. -/
structure HpfpResult where
  actual : Option ℚ
  target : Option ℚ
  max_drop_pct : Option ℚ
  status : Status
  note : Option String
deriving DecidableEq, Repr

/-- Demand-classified rows (rows.filter at the top of analyzeHpfp and
analyzeIat). -/
def demandRows (rows : List Row) (cols : Columns) (u : BoostUnit) : List Row :=
  rows.filter (rowDemand cols u)

/-- sourceRows: Demand rows when at least 5 exist, otherwise all rows. -/
def hpfpSourceRows (rows : List Row) (cols : Columns) (u : BoostUnit) : List Row :=
  if 5 ≤ (demandRows rows cols u).length then demandRows rows cols u else rows

/-- map(num).filter(v => !isNaN(v) && v > 0) over a row list. -/
def positiveReadings (l : List Row) (col : Option String) : List ℚ :=
  l.filterMap fun r =>
    match num r col with
    | none => none
    | some v => if 0 < v then some v else none

/-- actuals of analyzeHpfp: the positive parsed actual-pressure readings
over the source rows. -/
def hpfpActuals (rows : List Row) (cols : Columns) (u : BoostUnit) : List ℚ :=
  positiveReadings (hpfpSourceRows rows cols u) cols.hpfp

/-- Math.max over a list whose relevant uses are all-positive (base 0). -/
def listMax (l : List ℚ) : ℚ := l.foldl max 0

/-- One maximum-tracking update
(if (dropPct > maxDropPct) maxDropPct = dropPct). -/
def maxStep (m d : ℚ) : ℚ := if m < d then d else m

/-- Target-strategy drop scan over the ENTIRE row list: a row is skipped
when its actual or target cell does not parse, its target is at most
1000 psi, or its actual is nonpositive; otherwise (t − a)/t × 100 feeds
the running maximum. -/
def hpfpMaxDropTarget (rows : List Row) (actualCol targetCol : Option String) : ℚ :=
  rows.foldl (fun m r =>
    match num r actualCol, num r targetCol with
    | some a, some t => if t ≤ 1000 ∨ a ≤ 0 then m else maxStep m ((t - a) / t * 100)
    | _, _ => m) 0

/-- Peak-strategy drop scan over the actuals list. -/
def hpfpMaxDropPeak (actuals : List ℚ) (peak : ℚ) : ℚ :=
  actuals.foldl (fun m a => maxStep m ((peak - a) / peak * 100)) 0

/-- maxDropPct of analyzeHpfp: target strategy when a target column
resolved, otherwise the peak strategy over the source actuals. -/
def hpfpMaxDrop (rows : List Row) (cols : Columns) (u : BoostUnit) : ℚ :=
  match cols.hpfp_target with
  | some _ => hpfpMaxDropTarget rows cols.hpfp cols.hpfp_target
  | none => hpfpMaxDropPeak (hpfpActuals rows cols u) (listMax (hpfpActuals rows cols u))

/-- analyzeHpfp: early returns for a missing column or no valid readings,
otherwise baseline statistics over the source rows and the drop scan. -/
def analyzeHpfp (rows : List Row) (cols : Columns) (u : BoostUnit) : HpfpResult :=
  match cols.hpfp with
  | none =>
    { actual := none, target := none, max_drop_pct := none, status := .Safe,
      note := some "HPFP column not found in log." }
  | some _ =>
    let actuals := hpfpActuals rows cols u
    if actuals.length = 0 then
      { actual := none, target := none, max_drop_pct := none, status := .Safe,
        note := some "No valid HPFP readings during engine demand." }
    else
      let avgActual := listAvg actuals
      let peakActual := listMax actuals
      let avgTarget : Option ℚ :=
        match cols.hpfp_target with
        | none => none
        | some tc =>
          let targets := positiveReadings (hpfpSourceRows rows cols u) (some tc)
          if targets.length ≠ 0 then some (listAvg targets) else none
      let maxDropPct := hpfpMaxDrop rows cols u
      let status : Status :=
        if HPFP_DROP_RISK_PCT ≤ maxDropPct then .Risk
        else if HPFP_DROP_CAUTION_PCT ≤ maxDropPct then .Caution
        else .Safe
      let note : Option String :=
        if HPFP_DROP_RISK_PCT ≤ maxDropPct then
          some ("HPFP dropped " ++ qToString (roundN maxDropPct 1) ++ "% below "
            ++ (match avgTarget with | some _ => "target" | none => "session peak")
            ++ " during engine demand.")
        else if HPFP_DROP_CAUTION_PCT ≤ maxDropPct then
          some ("HPFP dipped " ++ qToString (roundN maxDropPct 1)
            ++ "% under load — monitor closely.")
        else none
      { actual := some (roundN avgActual 0)
        target := some (match avgTarget with
          | some t => roundN t 0
          | none => roundN peakActual 0)
        max_drop_pct := some (roundN maxDropPct 1)
        status := status
        note := note }

/-! ## Generic lemmas about the maximum-tracking folds -/

theorem maxStep_le_left (m d : ℚ) : m ≤ maxStep m d := by
  unfold maxStep
  split
  · next h => exact h.le
  · exact le_refl m

theorem maxStep_le_right (m d : ℚ) : d ≤ maxStep m d := by
  unfold maxStep
  split
  · exact le_refl d
  · next h => exact le_of_not_lt h

theorem maxStep_cases (m d : ℚ) : maxStep m d = m ∨ maxStep m d = d := by
  unfold maxStep
  split
  · exact Or.inr rfl
  · exact Or.inl rfl

theorem maxStep_eq_max (m d : ℚ) : maxStep m d = max m d := by
  unfold maxStep
  split
  · next h => exact (max_eq_right h.le).symm
  · next h => exact (max_eq_left (le_of_not_lt h)).symm

theorem foldl_maxStep_init_le {α : Type} (g : α → ℚ) (l : List α) (i : ℚ) :
    i ≤ l.foldl (fun m x => maxStep m (g x)) i := by
  induction l generalizing i with
  | nil => exact le_refl i
  | cons a t ih =>
    rw [List.foldl_cons]
    exact le_trans (maxStep_le_left i (g a)) (ih (maxStep i (g a)))

theorem foldl_maxStep_mem_le {α : Type} (g : α → ℚ) (l : List α) :
    ∀ (i : ℚ) (x : α), x ∈ l → g x ≤ l.foldl (fun m y => maxStep m (g y)) i := by
  induction l with
  | nil => intro i x hx; cases hx
  | cons a t ih =>
    intro i x hx
    rw [List.foldl_cons]
    rcases List.mem_cons.mp hx with rfl | hx
    · exact le_trans (maxStep_le_right i (g x)) (foldl_maxStep_init_le g t _)
    · exact ih _ x hx

theorem foldl_maxStep_attained {α : Type} (g : α → ℚ) (l : List α) (i : ℚ) :
    l.foldl (fun m x => maxStep m (g x)) i = i ∨
      ∃ x ∈ l, l.foldl (fun m y => maxStep m (g y)) i = g x := by
  induction l generalizing i with
  | nil => exact Or.inl rfl
  | cons a t ih =>
    rw [List.foldl_cons]
    rcases ih (maxStep i (g a)) with h | ⟨x, hx, h⟩
    · rw [h]
      rcases maxStep_cases i (g a) with h' | h'
      · exact Or.inl h'
      · exact Or.inr ⟨a, List.mem_cons_self a t, h'⟩
    · exact Or.inr ⟨x, List.mem_cons_of_mem a hx, h⟩

theorem foldl_maxStep_le {α : Type} (g : α → ℚ) (l : List α) :
    ∀ (i M : ℚ), i ≤ M → (∀ x ∈ l, g x ≤ M) →
      l.foldl (fun m x => maxStep m (g x)) i ≤ M := by
  induction l with
  | nil => intro i M hi _; exact hi
  | cons a t ih =>
    intro i M hi h
    rw [List.foldl_cons]
    refine ih _ M ?_ (fun x hx => h x (List.mem_cons_of_mem a hx))
    unfold maxStep
    split
    · exact h a (List.mem_cons_self a t)
    · exact hi

theorem listMax_eq_fold (l : List ℚ) :
    listMax l = l.foldl (fun m x => maxStep m (id x)) 0 := by
  unfold listMax
  congr 1
  funext m x
  rw [maxStep_eq_max]
  rfl

theorem listMax_nonneg (l : List ℚ) : 0 ≤ listMax l := by
  rw [listMax_eq_fold]
  exact foldl_maxStep_init_le id l 0

theorem listMax_ge (l : List ℚ) (x : ℚ) (hx : x ∈ l) : x ≤ listMax l := by
  rw [listMax_eq_fold]
  exact foldl_maxStep_mem_le id l 0 x hx

theorem listMax_le (l : List ℚ) (M : ℚ) (hM : 0 ≤ M) (h : ∀ x ∈ l, x ≤ M) :
    listMax l ≤ M := by
  rw [listMax_eq_fold]
  exact foldl_maxStep_le id l 0 M hM h

theorem positiveReadings_pos (l : List Row) (c : Option String) :
    ∀ v ∈ positiveReadings l c, 0 < v := by
  intro v hv
  rcases List.mem_filterMap.mp hv with ⟨r, -, hr⟩
  cases hnum : num r c with
  | none => rw [hnum] at hr; cases hr
  | some w =>
    rw [hnum] at hr
    dsimp only at hr
    by_cases hw : 0 < w
    · rw [if_pos hw] at hr
      cases Option.some.inj hr
      exact hw
    · rw [if_neg hw] at hr
      cases hr

/-! ## C4: the HPFP drop scan -/

theorem analyzeHpfp_fields (rows : List Row) (cols : Columns) (u : BoostUnit) (c : String)
    (hc : cols.hpfp = some c) (hne : (hpfpActuals rows cols u).length ≠ 0) :
    (analyzeHpfp rows cols u).max_drop_pct = some (roundN (hpfpMaxDrop rows cols u) 1) ∧
    (analyzeHpfp rows cols u).status =
      (if HPFP_DROP_RISK_PCT ≤ hpfpMaxDrop rows cols u then Status.Risk
       else if HPFP_DROP_CAUTION_PCT ≤ hpfpMaxDrop rows cols u then Status.Caution
       else Status.Safe) := by
  unfold analyzeHpfp
  rw [hc]
  simp only [if_neg hne]
  exact ⟨by trivial, by trivial⟩

theorem analyzeHpfp_no_readings (rows : List Row) (cols : Columns) (u : BoostUnit)
    (h : (hpfpActuals rows cols u).length = 0) :
    (analyzeHpfp rows cols u).max_drop_pct = none := by
  unfold analyzeHpfp
  cases cols.hpfp with
  | none => rfl
  | some c => simp only [if_pos h]

/-- Per-row contribution of the target-strategy scan, 0 for skipped rows. -/
def hpfpTargetDrop (actualCol targetCol : Option String) (r : Row) : ℚ :=
  match num r actualCol, num r targetCol with
  | some a, some t => if t ≤ 1000 ∨ a ≤ 0 then 0 else (t - a) / t * 100
  | _, _ => 0

theorem hpfpMaxDropTarget_eq_fold (rows : List Row) (ac tc : Option String) :
    hpfpMaxDropTarget rows ac tc
      = rows.foldl (fun m r => maxStep m (hpfpTargetDrop ac tc r)) 0 := by
  unfold hpfpMaxDropTarget
  suffices h : ∀ i : ℚ, 0 ≤ i →
      rows.foldl (fun m r =>
        match num r ac, num r tc with
        | some a, some t => if t ≤ 1000 ∨ a ≤ 0 then m else maxStep m ((t - a) / t * 100)
        | _, _ => m) i
      = rows.foldl (fun m r => maxStep m (hpfpTargetDrop ac tc r)) i from
    h 0 (le_refl 0)
  induction rows with
  | nil => intro i _; rfl
  | cons r t ih =>
    intro i hi
    simp only [List.foldl_cons]
    have hstep : (match num r ac, num r tc with
        | some a, some t => if t ≤ 1000 ∨ a ≤ 0 then i else maxStep i ((t - a) / t * 100)
        | _, _ => i) = maxStep i (hpfpTargetDrop ac tc r) := by
      unfold hpfpTargetDrop
      have hms : maxStep i 0 = i := by
        unfold maxStep
        rw [if_neg (not_lt.mpr hi)]
      cases num r ac with
      | none => rw [hms]
      | some a =>
        cases num r tc with
        | none => rw [hms]
        | some t' =>
          dsimp only
          by_cases hg : t' ≤ 1000 ∨ a ≤ 0
          · rw [if_pos hg, if_pos hg, hms]
          · rw [if_neg hg, if_neg hg]
    rw [hstep]
    exact ih _ (le_trans hi (maxStep_le_left _ _))

/-- C4 (amended): when a target column resolved, the drop scan runs over
the ENTIRE row list — every row whose target parses above 1000 psi and
whose actual parses positive contributes (t − a)/t × 100 to the maximum,
and the maximum is 0 or attained by such a row; when no target column
resolved, the scan instead covers only the baseline source actuals
(positive readings of Demand rows when at least 5 Demand rows exist,
otherwise of all rows), relative to the peak over those same actuals; the
status is Risk at maximum drop ≥ 20, Caution at ≥ 10, else Safe, and
max_drop_pct reports the maximum rounded to 1 decimal. -/
theorem c4_hpfp_drop_scan (rows : List Row) (cols : Columns) (u : BoostUnit) (c : String)
    (hc : cols.hpfp = some c) :
    ((hpfpActuals rows cols u).length ≠ 0 →
      (analyzeHpfp rows cols u).max_drop_pct = some (roundN (hpfpMaxDrop rows cols u) 1) ∧
      (analyzeHpfp rows cols u).status =
        (if HPFP_DROP_RISK_PCT ≤ hpfpMaxDrop rows cols u then Status.Risk
         else if HPFP_DROP_CAUTION_PCT ≤ hpfpMaxDrop rows cols u then Status.Caution
         else Status.Safe)) ∧
    (∀ tc, cols.hpfp_target = some tc →
      (∀ r ∈ rows, ∀ a t : ℚ, num r cols.hpfp = some a → num r (some tc) = some t →
        1000 < t → 0 < a → (t - a) / t * 100 ≤ hpfpMaxDrop rows cols u) ∧
      (hpfpMaxDrop rows cols u = 0 ∨
        ∃ r ∈ rows, ∃ a t : ℚ, num r cols.hpfp = some a ∧ num r (some tc) = some t ∧
          1000 < t ∧ 0 < a ∧ hpfpMaxDrop rows cols u = (t - a) / t * 100)) ∧
    (cols.hpfp_target = none →
      hpfpMaxDrop rows cols u
        = hpfpMaxDropPeak (hpfpActuals rows cols u) (listMax (hpfpActuals rows cols u)) ∧
      (∀ a ∈ hpfpActuals rows cols u,
        (listMax (hpfpActuals rows cols u) - a) / listMax (hpfpActuals rows cols u) * 100
          ≤ hpfpMaxDrop rows cols u) ∧
      (hpfpMaxDrop rows cols u = 0 ∨
        ∃ a ∈ hpfpActuals rows cols u,
          hpfpMaxDrop rows cols u
            = (listMax (hpfpActuals rows cols u) - a)
                / listMax (hpfpActuals rows cols u) * 100)) := by
  refine ⟨fun hne => analyzeHpfp_fields rows cols u c hc hne, ?_, ?_⟩
  · intro tc htc
    have hmd : hpfpMaxDrop rows cols u
        = rows.foldl (fun m r => maxStep m (hpfpTargetDrop cols.hpfp (some tc) r)) 0 := by
      unfold hpfpMaxDrop
      rw [htc]
      exact hpfpMaxDropTarget_eq_fold rows cols.hpfp (some tc)
    constructor
    · intro r hr a t hna hnt ht ha
      have hdrop : hpfpTargetDrop cols.hpfp (some tc) r = (t - a) / t * 100 := by
        unfold hpfpTargetDrop
        rw [hna, hnt]
        dsimp only
        rw [if_neg]
        push_neg
        exact ⟨ht, ha⟩
      rw [hmd, ← hdrop]
      exact foldl_maxStep_mem_le _ rows 0 r hr
    · rw [hmd]
      rcases foldl_maxStep_attained (hpfpTargetDrop cols.hpfp (some tc)) rows 0 with h | ⟨r, hr, h⟩
      · exact Or.inl h
      · cases hna : num r cols.hpfp with
        | none =>
          left
          rw [h]
          unfold hpfpTargetDrop
          rw [hna]
        | some a =>
          cases hnt : num r (some tc) with
          | none =>
            left
            rw [h]
            unfold hpfpTargetDrop
            rw [hna, hnt]
          | some t =>
            by_cases hg : t ≤ 1000 ∨ a ≤ 0
            · left
              rw [h]
              unfold hpfpTargetDrop
              rw [hna, hnt]
              dsimp only
              rw [if_pos hg]
            · right
              rw [not_or, not_le, not_le] at hg
              refine ⟨r, hr, a, t, hna, hnt, hg.1, hg.2, ?_⟩
              rw [h]
              unfold hpfpTargetDrop
              rw [hna, hnt]
              dsimp only
              rw [if_neg]
              push_neg
              exact ⟨hg.1, hg.2⟩
  · intro htc
    have hmd : hpfpMaxDrop rows cols u
        = hpfpMaxDropPeak (hpfpActuals rows cols u) (listMax (hpfpActuals rows cols u)) := by
      unfold hpfpMaxDrop
      rw [htc]
    refine ⟨hmd, ?_, ?_⟩
    · intro a ha
      rw [hmd]
      exact foldl_maxStep_mem_le _ (hpfpActuals rows cols u) 0 a ha
    · rw [hmd]
      rcases foldl_maxStep_attained
          (fun a => (listMax (hpfpActuals rows cols u) - a)
            / listMax (hpfpActuals rows cols u) * 100)
          (hpfpActuals rows cols u) 0 with h | ⟨a, ha, h⟩
      · exact Or.inl h
      · exact Or.inr ⟨a, ha, h⟩

/-- Concrete columns for the C4 counterexample: actual pressure and load
resolve, no target column. -/
def colsC4 : Columns := { hpfp := some "hp", load := some "ld" }

/-- Concrete rows for the C4 counterexample: five Demand rows at 5000 psi
and one idle row at 1000 psi. -/
def rowsC4 : List Row :=
  [[("ld", some 80), ("hp", some 5000)],
   [("ld", some 80), ("hp", some 5000)],
   [("ld", some 80), ("hp", some 5000)],
   [("ld", some 80), ("hp", some 5000)],
   [("ld", some 80), ("hp", some 5000)],
   [("ld", some 0), ("hp", some 1000)]]

/-- C4 is false as stated: without a target column the drop scan does NOT
cover the entire row set.  Here five Demand rows read 5000 psi and one
idle row reads 1000 psi — an 80% drop from the 5000 psi peak — yet the
computation, restricted to the Demand source rows, reports max_drop_pct 0
and status Safe. -/
theorem c4_counterexample :
    (analyzeHpfp rowsC4 colsC4 .psi).max_drop_pct = some 0 ∧
    (analyzeHpfp rowsC4 colsC4 .psi).status = Status.Safe ∧
    num [("ld", some (0 : ℚ)), ("hp", some 1000)] colsC4.hpfp = some 1000 ∧
    ((5000 - 1000) / 5000 * 100 : ℚ) = 80 := by
  refine ⟨by decide, by decide, by decide, by decide⟩

/-- Concrete columns and row for the C4 witness: both HPFP columns
resolve; target 3000 psi against actual 2000 psi is a 33.33% drop. -/
def colsC4w : Columns := { hpfp := some "hp", hpfp_target := some "tg" }

def rowC4w : Row := [("hp", some 2000), ("tg", some 3000)]

/-- Witness for c4_hpfp_drop_scan on a one-row log with a target column:
the reported drop is the rounded maximum and every qualifying row bounds
it. -/
theorem c4_hpfp_drop_scan_witness :
    colsC4w.hpfp = some "hp" ∧
    (hpfpActuals [rowC4w] colsC4w .psi).length ≠ 0 ∧
    (analyzeHpfp [rowC4w] colsC4w .psi).max_drop_pct
      = some (roundN (hpfpMaxDrop [rowC4w] colsC4w .psi) 1) ∧
    (analyzeHpfp [rowC4w] colsC4w .psi).status
      = (if HPFP_DROP_RISK_PCT ≤ hpfpMaxDrop [rowC4w] colsC4w .psi then Status.Risk
         else if HPFP_DROP_CAUTION_PCT ≤ hpfpMaxDrop [rowC4w] colsC4w .psi then Status.Caution
         else Status.Safe) :=
  ⟨rfl, by decide,
   ((c4_hpfp_drop_scan [rowC4w] colsC4w .psi "hp" rfl).1 (by decide)).1,
   ((c4_hpfp_drop_scan [rowC4w] colsC4w .psi "hp" rfl).1 (by decide)).2⟩

/-! ## C10: zero / negative actual pressures in the HPFP analyzer -/

theorem num_col_some (r : Row) (col : Option String) (v : ℚ) (h : num r col = some v) :
    ∃ c, col = some c := by
  cases col with
  | none => simp [num] at h
  | some c => exact ⟨c, rfl⟩

theorem roundN_mono {a b : ℚ} (h : a ≤ b) (n : ℕ) : roundN a n ≤ roundN b n := by
  unfold roundN
  have hpow : (0 : ℚ) < 10 ^ n := by positivity
  have hj : jsRound (a * 10 ^ n) ≤ jsRound (b * 10 ^ n) := by
    rw [jsRound_eq, jsRound_eq, round_eq, round_eq]
    apply Int.floor_le_floor
    have hm : a * 10 ^ n ≤ b * 10 ^ n := mul_le_mul_of_nonneg_right h (le_of_lt hpow)
    linarith
  have hcast : ((jsRound (a * 10 ^ n) : ℤ) : ℚ) ≤ ((jsRound (b * 10 ^ n) : ℤ) : ℚ) := by
    exact_mod_cast hj
  gcongr

theorem positiveReadings_append (l1 l2 : List Row) (c : Option String) :
    positiveReadings (l1 ++ l2) c = positiveReadings l1 c ++ positiveReadings l2 c := by
  unfold positiveReadings
  exact List.filterMap_append l1 l2 _

/-- A row whose reading is nonpositive contributes nothing to
positiveReadings. -/
theorem positiveReadings_skip (l1 l2 : List Row) (r : Row) (c : Option String)
    (a0 : ℚ) (hr : num r c = some a0) (ha : a0 ≤ 0) :
    positiveReadings (l1 ++ r :: l2) c = positiveReadings (l1 ++ l2) c := by
  rw [positiveReadings_append, positiveReadings_append]
  congr 1
  show positiveReadings (r :: l2) c = positiveReadings l2 c
  unfold positiveReadings
  rw [List.filterMap_cons]
  rw [hr]
  dsimp only
  rw [if_neg (not_lt.mpr ha)]

theorem demandRows_append (l1 l2 : List Row) (cols : Columns) (u : BoostUnit) :
    demandRows (l1 ++ l2) cols u = demandRows l1 cols u ++ demandRows l2 cols u := by
  unfold demandRows
  exact List.filter_append l1 l2

theorem demandRows_sublist (rows : List Row) (cols : Columns) (u : BoostUnit) :
    List.Sublist (demandRows rows cols u) rows :=
  List.filter_sublist rows

/-- Removing a row whose actual pressure is nonpositive cannot change the
target-strategy maximum drop: that row is skipped by the scan. -/
theorem hpfpMaxDropTarget_skip (l1 l2 : List Row) (r : Row) (ac tc : Option String)
    (a0 : ℚ) (hr : num r ac = some a0) (ha : a0 ≤ 0) :
    hpfpMaxDropTarget (l1 ++ r :: l2) ac tc = hpfpMaxDropTarget (l1 ++ l2) ac tc := by
  rw [hpfpMaxDropTarget_eq_fold, hpfpMaxDropTarget_eq_fold,
      List.foldl_append, List.foldl_append, List.foldl_cons]
  have hzero : hpfpTargetDrop ac tc r = 0 := by
    unfold hpfpTargetDrop
    rw [hr]
    cases num r tc with
    | none => rfl
    | some t =>
      dsimp only
      rw [if_pos (Or.inr ha)]
  have hinit : (0 : ℚ) ≤ l1.foldl (fun m x => maxStep m (hpfpTargetDrop ac tc x)) 0 :=
    foldl_maxStep_init_le _ l1 0
  have hms : ∀ m : ℚ, 0 ≤ m → maxStep m 0 = m := by
    intro m hm
    unfold maxStep
    rw [if_neg (not_lt.mpr hm)]
  congr 1
  show maxStep (l1.foldl (fun m x => maxStep m (hpfpTargetDrop ac tc x)) 0)
      (hpfpTargetDrop ac tc r) = _
  rw [hzero]
  exact hms _ hinit

theorem drop_le_drop (a p p' : ℚ) (ha : 0 < a) (hap : a ≤ p') (hpp : p' ≤ p) :
    (p' - a) / p' * 100 ≤ (p - a) / p * 100 := by
  have hp' : 0 < p' := lt_of_lt_of_le ha hap
  have hp : 0 < p := lt_of_lt_of_le hp' hpp
  rw [div_mul_eq_mul_div, div_mul_eq_mul_div, div_le_div_iff₀ hp' hp]
  nlinarith

/-- Shrinking the all-positive actuals list (and with it the session peak)
can only lower the peak-strategy maximum drop. -/
theorem hpfpMaxDropPeak_mono (Q P : List ℚ) (hsub : List.Sublist Q P)
    (hpos : ∀ a ∈ P, 0 < a) :
    hpfpMaxDropPeak Q (listMax Q) ≤ hpfpMaxDropPeak P (listMax P) := by
  unfold hpfpMaxDropPeak
  apply foldl_maxStep_le
  · exact foldl_maxStep_init_le _ P 0
  · intro a ha'
    have haP : a ∈ P := hsub.subset ha'
    have ha : 0 < a := hpos a haP
    have h1 : (listMax Q - a) / listMax Q * 100 ≤ (listMax P - a) / listMax P * 100 :=
      drop_le_drop a (listMax P) (listMax Q) ha (listMax_ge Q a ha')
        (listMax_le Q (listMax P) (listMax_nonneg P)
          (fun x hx => listMax_ge P x (hsub.subset hx)))
    exact le_trans h1 (foldl_maxStep_mem_le _ P 0 a haP)

/-- Core of C10: inserting a row whose actual pressure parses nonpositive
leaves the actuals a sublist of what they were and never raises the
maximum drop. -/
theorem hpfp_insert_core (rows1 rows2 : List Row) (r : Row) (cols : Columns)
    (u : BoostUnit) (a0 : ℚ) (hr : num r cols.hpfp = some a0) (ha0 : a0 ≤ 0) :
    List.Sublist (hpfpActuals (rows1 ++ r :: rows2) cols u)
      (hpfpActuals (rows1 ++ rows2) cols u) ∧
    hpfpMaxDrop (rows1 ++ r :: rows2) cols u ≤ hpfpMaxDrop (rows1 ++ rows2) cols u := by
  have hPskip : ∀ l1 l2 : List Row,
      positiveReadings (l1 ++ r :: l2) cols.hpfp = positiveReadings (l1 ++ l2) cols.hpfp :=
    fun l1 l2 => positiveReadings_skip l1 l2 r cols.hpfp a0 hr ha0
  -- The actuals of the enlarged log are those of the original, except in
  -- one boundary case where they shrink to the Demand-only readings.
  have hact : hpfpActuals (rows1 ++ r :: rows2) cols u
        = hpfpActuals (rows1 ++ rows2) cols u ∨
      (hpfpActuals (rows1 ++ r :: rows2) cols u
          = positiveReadings (demandRows (rows1 ++ rows2) cols u) cols.hpfp ∧
        hpfpActuals (rows1 ++ rows2) cols u
          = positiveReadings (rows1 ++ rows2) cols.hpfp) := by
    unfold hpfpActuals hpfpSourceRows
    by_cases hd : rowDemand cols u r
    · have hD' : demandRows (rows1 ++ r :: rows2) cols u
          = demandRows rows1 cols u ++ r :: demandRows rows2 cols u := by
        unfold demandRows
        rw [List.filter_append]
        congr 1
        exact List.filter_cons_of_pos hd
      have hD : demandRows (rows1 ++ rows2) cols u
          = demandRows rows1 cols u ++ demandRows rows2 cols u :=
        demandRows_append rows1 rows2 cols u
      have hlen : (demandRows (rows1 ++ r :: rows2) cols u).length
          = (demandRows (rows1 ++ rows2) cols u).length + 1 := by
        rw [hD', hD]
        simp only [List.length_append, List.length_cons]
        omega
      by_cases h5 : 5 ≤ (demandRows (rows1 ++ rows2) cols u).length
      · have h5' : 5 ≤ (demandRows (rows1 ++ r :: rows2) cols u).length := by omega
        rw [if_pos h5, if_pos h5', hD', hD]
        exact Or.inl (hPskip (demandRows rows1 cols u) (demandRows rows2 cols u))
      · by_cases h5' : 5 ≤ (demandRows (rows1 ++ r :: rows2) cols u).length
        · rw [if_pos h5', if_neg h5, hD', hD]
          exact Or.inr ⟨hPskip (demandRows rows1 cols u) (demandRows rows2 cols u), rfl⟩
        · rw [if_neg h5, if_neg h5']
          exact Or.inl (hPskip rows1 rows2)
    · have hD'eq : demandRows (rows1 ++ r :: rows2) cols u
          = demandRows (rows1 ++ rows2) cols u := by
        unfold demandRows
        rw [List.filter_append, List.filter_append]
        congr 1
        exact List.filter_cons_of_neg (by simpa using hd)
      rw [hD'eq]
      by_cases h5 : 5 ≤ (demandRows (rows1 ++ rows2) cols u).length
      · rw [if_pos h5, if_pos h5]
        exact Or.inl rfl
      · rw [if_neg h5, if_neg h5]
        exact Or.inl (hPskip rows1 rows2)
  have hsub : List.Sublist (hpfpActuals (rows1 ++ r :: rows2) cols u)
      (hpfpActuals (rows1 ++ rows2) cols u) := by
    rcases hact with h | ⟨h1, h2⟩
    · rw [h]
    · rw [h1, h2]
      exact (demandRows_sublist (rows1 ++ rows2) cols u).filterMap _
  refine ⟨hsub, ?_⟩
  unfold hpfpMaxDrop
  cases htc : cols.hpfp_target with
  | some tc =>
    rw [hpfpMaxDropTarget_skip rows1 rows2 r cols.hpfp (some tc) a0 hr ha0]
  | none =>
    rcases hact with h | ⟨h1, h2⟩
    · rw [h]
    · rw [h1, h2]
      exact hpfpMaxDropPeak_mono _ _
        ((demandRows_sublist (rows1 ++ rows2) cols u).filterMap _)
        (positiveReadings_pos (rows1 ++ rows2) cols.hpfp)

/-- C10: a row whose actual-pressure cell parses to a nonpositive value is
excluded from the HPFP baseline statistics — the actuals list that feeds
the average and the peak holds only positive values — and from the drop
scan: inserting such a row anywhere in the log never raises the reported
max_drop_pct (in particular a complete pressure loss, actual = 0, never
increases it). -/
theorem c10_nonpositive_actual_excluded (rows1 rows2 : List Row) (r : Row)
    (cols : Columns) (u : BoostUnit) (a0 : ℚ)
    (hr : num r cols.hpfp = some a0) (ha0 : a0 ≤ 0) :
    (∀ v ∈ hpfpActuals (rows1 ++ r :: rows2) cols u, 0 < v) ∧
    (∀ d', (analyzeHpfp (rows1 ++ r :: rows2) cols u).max_drop_pct = some d' →
      ∃ d, (analyzeHpfp (rows1 ++ rows2) cols u).max_drop_pct = some d ∧ d' ≤ d) := by
  obtain ⟨c, hc⟩ := num_col_some r cols.hpfp a0 hr
  obtain ⟨hsub, hle⟩ := hpfp_insert_core rows1 rows2 r cols u a0 hr ha0
  refine ⟨positiveReadings_pos _ _, ?_⟩
  intro d' hd'
  by_cases hne : (hpfpActuals (rows1 ++ r :: rows2) cols u).length = 0
  · rw [analyzeHpfp_no_readings _ _ _ hne] at hd'
    cases hd'
  · have hne2 : (hpfpActuals (rows1 ++ rows2) cols u).length ≠ 0 := by
      intro h0
      have hl := hsub.length_le
      omega
    rw [(analyzeHpfp_fields _ cols u c hc hne).1] at hd'
    cases Option.some.inj hd'
    exact ⟨roundN (hpfpMaxDrop (rows1 ++ rows2) cols u) 1,
      (analyzeHpfp_fields _ cols u c hc hne2).1, roundN_mono hle 1⟩

/-- Concrete data for the C10 witness. -/
def colsC10 : Columns := { hpfp := some "hp" }

def rowC10 : Row := [("hp", some 0)]

def rowsC10tail : List Row := [[("hp", some 2000)], [("hp", some 1000)]]

/-- Witness for c10_nonpositive_actual_excluded: a complete pressure-loss
row (actual 0) inserted before readings 2000 and 1000 psi leaves the
reported 50% maximum drop unchanged. -/
theorem c10_nonpositive_actual_excluded_witness :
    num rowC10 colsC10.hpfp = some 0 ∧ ((0 : ℚ) ≤ 0) ∧
    (analyzeHpfp ([] ++ rowC10 :: rowsC10tail) colsC10 .psi).max_drop_pct = some 50 ∧
    (∃ d, (analyzeHpfp ([] ++ rowsC10tail) colsC10 .psi).max_drop_pct = some d ∧
      (50 : ℚ) ≤ d) :=
  ⟨rfl, le_refl 0, by decide,
   (c10_nonpositive_actual_excluded [] rowsC10tail rowC10 colsC10 .psi 0 rfl
     (le_refl 0)).2 50 (by decide)⟩

/-! ## IAT analyzer (detectIatUnit / analyzeIat, csvParser.js lines 431-516) -/

inductive IatUnit where
  | F
  | C
deriving DecidableEq, Repr

/-- Substring test (String.prototype.includes): the pattern occurs inside
the string exactly when splitting on it yields more than one piece. -/
def containsSub (s pat : String) : Bool :=
  decide (1 < (s.splitOn pat).length)

/-- detectIatUnit: unit marker embedded in the lowercased column header;
none when ambiguous. -/
def detectIatUnit (colName : Option String) : Option IatUnit :=
  match colName with
  | none => none
  | some cn =>
    let lower := cn.toLower
    if containsSub lower "°f" || containsSub lower "[f]" || containsSub lower "(f)" ||
        containsSub lower "_f]" || containsSub lower " f]" ||
        containsSub lower "_fahrenheit" then
      some .F
    else if containsSub lower "°c" || containsSub lower "[c]" || containsSub lower "(c)" ||
        containsSub lower "_c]" || containsSub lower " c]" ||
        containsSub lower "_celsius" then
      some .C
    else none

/-- map(num).filter(v => !isNaN(v)) over a row list. -/
def parsedReadings (l : List Row) (col : Option String) : List ℚ :=
  l.filterMap fun r => num r col

/-- Math.max over a nonempty list that may hold negative values. -/
def listMaxD (l : List ℚ) : ℚ := l.foldl max (l.headD 0)

/-- Result record of analyzeIat. -/
structure IatResult where
  value : Option ℚ
  unit : IatUnit
  peak_f : Option ℚ
  status : Status
  note : Option String
deriving DecidableEq, Repr

/-- analyzeIat: early returns for a missing column or no parsed readings,
unit detection (header marker first, then the all-below-100 heuristic),
Demand-row filtering with the same at-least-5 fallback as HPFP, peak
conversion to Fahrenheit and the 140/120 thresholds. -/
def analyzeIat (rows : List Row) (cols : Columns) (u : BoostUnit) : IatResult :=
  match cols.iat with
  | none =>
    { value := none, unit := .F, peak_f := none, status := .Safe,
      note := some "IAT column not found in log." }
  | some iatCol =>
    let allValues := parsedReadings rows (some iatCol)
    if allValues.length = 0 then
      { value := none, unit := .F, peak_f := none, status := .Safe,
        note := some "No valid IAT readings." }
    else
      let colUnit := detectIatUnit (some iatCol)
      let likelyCelsius : Bool :=
        match colUnit with
        | some cu => decide (cu = IatUnit.C)
        | none => allValues.all fun v => decide (v ≤ 100)
      let unit : IatUnit := if likelyCelsius then .C else .F
      let toF : ℚ → ℚ := fun v => if likelyCelsius then v * 9 / 5 + 32 else v
      let dRows := demandRows rows cols u
      let sourceValues :=
        if 5 ≤ dRows.length then parsedReadings dRows (some iatCol) else allValues
      if sourceValues.length = 0 then
        { value := none, unit := unit, peak_f := none, status := .Safe,
          note := some "No valid IAT readings during engine demand." }
      else
        let maxRaw := listMaxD sourceValues
        let peakF := roundN (toF maxRaw) 1
        let context : String := if 5 ≤ dRows.length then "under load" else "session peak"
        let status : Status :=
          if IAT_RISK_F ≤ peakF then .Risk
          else if IAT_CAUTION_F ≤ peakF then .Caution
          else .Safe
        let note : Option String :=
          if IAT_RISK_F ≤ peakF then
            some ("Peak IAT of " ++ toString (jsRound peakF) ++ "°F " ++ context
              ++ " exceeds safe operating threshold.")
          else if IAT_CAUTION_F ≤ peakF then
            some ("Peak IAT of " ++ toString (jsRound peakF) ++ "°F " ++ context
              ++ " is elevated — consider heat soak risk.")
          else none
        { value := some (roundN maxRaw 1)
          unit := unit
          peak_f := some peakF
          status := status
          note := note }

/-! ## Timing-correction analyzer (csvParser.js lines 520-580) -/

/-- Result record of analyzeTimingCorrections. -/
structure TimingResult where
  max_correction : Option ℚ
  cylinders : String
  pull_events : ℕ
  status : Status
  note : Option String
deriving DecidableEq, Repr

/-- Accumulator of the timing row loop. -/
structure TimingState where
  worstDeg : ℚ := 0
  worstCyl : Option String := none
  pullEvents : ℕ := 0
deriving DecidableEq, Repr

/-- Inner loop over the detected timing columns of one qualifying row. -/
def timingRowStep (timingColumns : List String) (r : Row) (s : TimingState) : TimingState :=
  timingColumns.foldl (fun st col =>
    match num r (some col) with
    | none => st
    | some val =>
      let st1 :=
        if val < st.worstDeg then { st with worstDeg := val, worstCyl := some col } else st
      if val ≤ TIMING_CAUTION_DEG then { st1 with pullEvents := st1.pullEvents + 1 }
      else st1) s

/-- One iteration of the timing row loop: the same lift guard as isDemand,
then the load ≥ 40 or boost > 2 gate, then the per-column scan. -/
def timingStep (cols : Columns) (u : BoostUnit) (timingColumns : List String)
    (s : TimingState) (r : Row) : TimingState :=
  let load := num r cols.load
  let boost := normalizeBoostToPsi (num r cols.boost) u
  let pedal := num r cols.pedal
  let throttle := num r cols.throttle
  if (match pedal with
      | some p => decide (p < 1) &&
          (match throttle with
           | some t => decide (t < 5)
           | none => true)
      | none => false) then s
  else if load.getD 0 < LOAD_TIMING ∧ boost.getD 0 ≤ BOOST_DEMAND then s
  else timingRowStep timingColumns r s

/-- analyzeTimingCorrections: early return when no timing columns were
detected, otherwise the guarded scan and the −4 / −2 degree thresholds. -/
def analyzeTimingCorrections (rows : List Row) (timingColumns : List String)
    (cols : Columns) (u : BoostUnit) : TimingResult :=
  if timingColumns.length = 0 then
    { max_correction := none, cylinders := "No timing correction columns found.",
      pull_events := 0, status := .Safe, note := none }
  else
    let st := rows.foldl (timingStep cols u timingColumns) {}
    let status : Status :=
      if st.worstDeg ≤ TIMING_RISK_DEG then .Risk
      else if st.worstDeg ≤ TIMING_CAUTION_DEG then .Caution
      else .Safe
    let cylLabel : String :=
      match st.worstCyl with
      | some wc => qToString (roundN st.worstDeg 1) ++ "° on " ++ wc
      | none => "No corrections observed under load"
    { max_correction := some (roundN st.worstDeg 2)
      cylinders := cylLabel
      pull_events := st.pullEvents
      status := status
      note :=
        if status ≠ Status.Safe then
          some ("Worst timing pull under load: " ++ cylLabel ++ ".")
        else none }

/-- C6: a missing required channel is never fatal.  The affected metric
returns status Safe with a null value and the note
"<channel> column not found in log.", and every analyzer's output is
unchanged when the channels it never reads — in particular the other
metrics' channels — are dropped from the column mapping, so each metric's
result is what it would be in isolation. -/
theorem c6_missing_column_partial (rows : List Row) (cols : Columns) (lam : Bool)
    (th : Thresholds) (u : BoostUnit) (tcs : List String) :
    (analyzeAfr rows { cols with afr := none } lam th u
      = { actual := none, target := none, lean_events := 0, rich_events := 0,
          status := Status.Safe, note := some "AFR column not found in log." }) ∧
    (analyzeHpfp rows { cols with hpfp := none } u
      = { actual := none, target := none, max_drop_pct := none,
          status := Status.Safe, note := some "HPFP column not found in log." }) ∧
    (analyzeIat rows { cols with iat := none } u
      = { value := none, unit := IatUnit.F, peak_f := none,
          status := Status.Safe, note := some "IAT column not found in log." }) ∧
    (analyzeHpfp rows { cols with afr := none, iat := none, afr_target := none } u
      = analyzeHpfp rows cols u) ∧
    (analyzeIat rows
        { cols with afr := none, hpfp := none, afr_target := none, hpfp_target := none } u
      = analyzeIat rows cols u) ∧
    (analyzeAfr rows { cols with hpfp := none, iat := none, hpfp_target := none } lam th u
      = analyzeAfr rows cols lam th u) ∧
    (analyzeTimingCorrections rows tcs
        { cols with afr := none, iat := none, hpfp := none, afr_target := none,
                    hpfp_target := none } u
      = analyzeTimingCorrections rows tcs cols u) :=
  ⟨rfl, rfl, rfl, rfl, rfl, rfl, rfl⟩

/-! ## Chart builder (buildChartData, csvParser.js lines 584-677) -/

/-- Time field of a chart point: the parsed rounded time, or the row index
(stringified in the source) when the time cell does not parse. -/
inductive TimeVal where
  | num (t : ℚ)
  | idx (i : ℕ)
deriving DecidableEq, Repr

structure ChartPoint where
  time : TimeVal
  afrActual : Option ℚ
  afrTarget : Option ℚ
  boost : Option ℚ
  isLeanWarning : Bool
  isHpfpWarning : Bool
  isTimingWarning : Bool
deriving DecidableEq, Repr

/-- Pre-computed session HPFP peak, only when the actual column resolved
and no target column exists (the chart's fallback drop reference). -/
def chartHpfpPeak (rows : List Row) (cols : Columns) : Option ℚ :=
  match cols.hpfp, cols.hpfp_target with
  | some hc, none =>
    let actuals := positiveReadings rows (some hc)
    if actuals.length ≠ 0 then some (listMax actuals) else none
  | _, _ => none

/-- The worst-HPFP-row scan: running worst drop and row index (the
source's −1 sentinel is none).  Rows whose actual does not parse positive
are skipped; with a target column the drop stays 0 unless the target
parses above 1000; without one it is measured against the session peak. -/
def worstHpfpScan (rows : List Row) (cols : Columns) (hpfpPeak : Option ℚ) : ℚ × Option ℕ :=
  rows.enum.foldl (fun st p =>
    match num p.2 cols.hpfp with
    | none => st
    | some a =>
      if a ≤ 0 then st
      else
        let dropPct : ℚ :=
          match cols.hpfp_target with
          | some tc =>
            match num p.2 (some tc) with
            | some t => if 1000 < t then (t - a) / t * 100 else 0
            | none => 0
          | none =>
            match hpfpPeak with
            | some pk => (pk - a) / pk * 100
            | none => 0
        if st.1 < dropPct then (dropPct, some p.1) else st) ((0 : ℚ), (none : Option ℕ))

/-- worstHpfpRowIdx: the single worst drop row across the whole file, kept
only when its drop reached the Risk threshold (20%); none when the actual
column is unresolved. -/
def worstHpfpIdx (rows : List Row) (cols : Columns) : Option ℕ :=
  match cols.hpfp with
  | none => none
  | some _ =>
    let scan := worstHpfpScan rows cols (chartHpfpPeak rows cols)
    if scan.1 < HPFP_DROP_RISK_PCT then none else scan.2

/-- Lean-warning test of one row inside a stride window: WOT regime and
converted AFR above the lean-caution bound (NaN AFR compares false). -/
def chartRowLeanWarning (cols : Columns) (lam : Bool) (th : Thresholds) (u : BoostUnit)
    (r : Row) : Bool :=
  match num r cols.afr with
  | none => false
  | some a =>
    isWot (num r cols.load) (normalizeBoostToPsi (num r cols.boost) u)
        (num r cols.pedal) (num r cols.throttle)
      && decide (th.lean_caution < toAfr lam a)

/-- Timing-warning test of one row inside a stride window: the source's
chart-specific guard (pedal absent or ≥ 1, or throttle absent or ≥ 5)
and (load ≥ 40 or boost > 2, NaN comparing false), then any timing column
pulled to −3 or below. -/
def chartRowTiming (cols : Columns) (u : BoostUnit) (timingColumns : List String)
    (r : Row) : Bool :=
  let l := num r cols.load
  let p := num r cols.pedal
  let t := num r cols.throttle
  let bPsi := normalizeBoostToPsi (num r cols.boost) u
  let guard1 : Bool :=
    match p with
    | none => true
    | some pv =>
      decide (1 ≤ pv) ||
        (match t with
         | none => true
         | some tv => decide (5 ≤ tv))
  let guard2 : Bool :=
    (match l with
     | some lv => decide (LOAD_TIMING ≤ lv)
     | none => false) ||
    (match bPsi with
     | some bv => decide (BOOST_DEMAND < bv)
     | none => false)
  if guard1 && guard2 then
    timingColumns.any fun col =>
      match num r (some col) with
      | none => false
      | some pull => decide (pull ≤ -3)
  else false

/-- Rows scanned by the stride window starting at i
(j from i while j < i + step and j < rows.length). -/
def windowRows (rows : List Row) (i step : ℕ) : List Row :=
  (rows.drop i).take step

/-- One emitted chart point at loop index i. -/
def mkChartPoint (rows : List Row) (cols : Columns) (lam : Bool) (u : BoostUnit)
    (step : ℕ) (th : Thresholds) (timingColumns : List String)
    (widx : Option ℕ) (i : ℕ) : ChartPoint :=
  let row := rows.getD i []
  let rawAfr := num row cols.afr
  let rawTarget := num row cols.afr_target
  let rawTime := num row cols.time
  let boostPsi := normalizeBoostToPsi (num row cols.boost) u
  let afrDisplay : Option ℚ :=
    match rawAfr with
    | none => none
    | some ra =>
      let ap := toAfr lam ra
      if ap < FUEL_CUT_AFR then some (roundN ap 2) else none
  { time :=
      match rawTime with
      | some tv => .num (roundN tv 2)
      | none => .idx i
    afrActual := afrDisplay
    afrTarget := rawTarget.map (fun rt => roundN (toAfr lam rt) 2)
    boost := boostPsi.map (fun b => roundN b 1)
    isLeanWarning := (windowRows rows i step).any (chartRowLeanWarning cols lam th u)
    isHpfpWarning :=
      match widx with
      | some j => decide (i ≤ j ∧ j < i + step)
      | none => false
    isTimingWarning := (windowRows rows i step).any (chartRowTiming cols u timingColumns) }

/-- Loop indices 0, step, 2·step, … below n (the for-loop of
buildChartData); their count is the ceiling of n/step. -/
def strideIndices (n step : ℕ) : List ℕ :=
  (List.range ((n + step - 1) / step)).map (fun k => k * step)

/-- buildChartData: locate the single worst HPFP row once globally, fix
the stride max(1, ⌊n/maxPoints⌋), and emit one point per stride index. -/
def buildChartData (rows : List Row) (cols : Columns) (lam : Bool) (u : BoostUnit)
    (maxPoints : ℕ) (th : Thresholds) (timingColumns : List String) : List ChartPoint :=
  let widx := worstHpfpIdx rows cols
  let step := max 1 (rows.length / maxPoints)
  (strideIndices rows.length step).map
    (mkChartPoint rows cols lam u step th timingColumns widx)

/-! ## C5: the chart point budget -/

theorem strideIndices_length (n step : ℕ) :
    (strideIndices n step).length = (n + step - 1) / step := by
  unfold strideIndices
  rw [List.length_map, List.length_range]

/-- C5 (amended): chart points are emitted at the fixed stride
max(1, ⌊n/150⌋) and the series has ⌈n/stride⌉ points; this count is at
most 299, not 150 — it exceeds the 150-point budget whenever the stride
does not divide the row count (already at 151 rows), peaking at 299. -/
theorem c5_chart_length (rows : List Row) (cols : Columns) (lam : Bool)
    (u : BoostUnit) (th : Thresholds) (tcs : List String) :
    (buildChartData rows cols lam u 150 th tcs).length
      = (rows.length + max 1 (rows.length / 150) - 1) / max 1 (rows.length / 150) ∧
    (buildChartData rows cols lam u 150 th tcs).length ≤ 299 := by
  have hlen : (buildChartData rows cols lam u 150 th tcs).length
      = (rows.length + max 1 (rows.length / 150) - 1) / max 1 (rows.length / 150) := by
    unfold buildChartData
    rw [List.length_map]
    exact strideIndices_length _ _
  refine ⟨hlen, ?_⟩
  rw [hlen]
  have hq := Nat.div_add_mod rows.length 150
  have hr : rows.length % 150 < 150 := Nat.mod_lt _ (by norm_num)
  by_cases h : rows.length / 150 ≤ 1
  · have hs : max 1 (rows.length / 150) = 1 := by omega
    rw [hs]
    omega
  · have hs : max 1 (rows.length / 150) = rows.length / 150 := by omega
    rw [hs]
    have hspos : 0 < rows.length / 150 := by omega
    have hlt : rows.length + rows.length / 150 - 1 < 300 * (rows.length / 150) := by omega
    have := (Nat.div_lt_iff_lt_mul hspos).mpr
      (by omega : rows.length + rows.length / 150 - 1 < 300 * (rows.length / 150))
    omega

/-- C5 is false as stated: 151 rows yield stride 1 and 151 chart points,
one more than the 150-point budget. -/
theorem c5_counterexample :
    (buildChartData (List.replicate 151 ([] : Row)) {} false .psi 150
        (getAfrThresholds none) []).length = 151 ∧ 150 < 151 := by
  exact ⟨by decide, by decide⟩

/-! ## C9: the single worst HPFP chart flag -/

/-- C9 (amended): when the HPFP column resolves and the globally worst
drop reaches the 20% Risk threshold — exactly the situation in which
worstHpfpIdx returns a row index j — the chart point whose stride window
contains row j is flagged isHpfpWarning, that point exists and is unique,
and every other point is unflagged; when the worst drop stays below the
threshold (worstHpfpIdx none), no point is flagged at all. -/
theorem c9_hpfp_flag (rows : List Row) (cols : Columns) (lam : Bool) (u : BoostUnit)
    (th : Thresholds) (tcs : List String) (j : ℕ)
    (hw : worstHpfpIdx rows cols = some j) (hj : j < rows.length) :
    (∀ i ∈ strideIndices rows.length (max 1 (rows.length / 150)),
      ((mkChartPoint rows cols lam u (max 1 (rows.length / 150)) th tcs
          (worstHpfpIdx rows cols) i).isHpfpWarning = true
        ↔ (i ≤ j ∧ j < i + max 1 (rows.length / 150)))) ∧
    (j / max 1 (rows.length / 150) * max 1 (rows.length / 150)
        ∈ strideIndices rows.length (max 1 (rows.length / 150)) ∧
      j / max 1 (rows.length / 150) * max 1 (rows.length / 150) ≤ j ∧
      j < j / max 1 (rows.length / 150) * max 1 (rows.length / 150)
          + max 1 (rows.length / 150)) ∧
    (∀ i1 i2 : ℕ,
      i1 ∈ strideIndices rows.length (max 1 (rows.length / 150)) →
      i2 ∈ strideIndices rows.length (max 1 (rows.length / 150)) →
      i1 ≤ j → j < i1 + max 1 (rows.length / 150) →
      i2 ≤ j → j < i2 + max 1 (rows.length / 150) → i1 = i2) ∧
    (∀ i : ℕ, (mkChartPoint rows cols lam u (max 1 (rows.length / 150)) th tcs
        none i).isHpfpWarning = false) ∧
    buildChartData rows cols lam u 150 th tcs
      = (strideIndices rows.length (max 1 (rows.length / 150))).map
          (mkChartPoint rows cols lam u (max 1 (rows.length / 150)) th tcs
            (worstHpfpIdx rows cols)) := by
  have hs : 0 < max 1 (rows.length / 150) := le_max_left 1 _
  refine ⟨?_, ⟨?_, ?_, ?_⟩, ?_, ?_, rfl⟩
  · intro i hi
    simp only [mkChartPoint, hw, decide_eq_true_eq]
  · unfold strideIndices
    rw [List.mem_map]
    refine ⟨j / max 1 (rows.length / 150), List.mem_range.mpr ?_, rfl⟩
    have hceil : (rows.length + max 1 (rows.length / 150) - 1) / max 1 (rows.length / 150)
        = (rows.length - 1) / max 1 (rows.length / 150) + 1 := by
      have harr : rows.length + max 1 (rows.length / 150) - 1
          = (rows.length - 1) + max 1 (rows.length / 150) := by omega
      rw [harr, Nat.add_div_right _ hs]
    rw [hceil]
    exact Nat.lt_succ_of_le (Nat.div_le_div_right (by omega))
  · exact Nat.div_mul_le_self j _
  · exact Nat.lt_div_mul_add hs
  · intro i1 i2 hi1 hi2 hle1 hlt1 hle2 hlt2
    unfold strideIndices at hi1 hi2
    rw [List.mem_map] at hi1 hi2
    obtain ⟨k1, -, hk1⟩ := hi1
    obtain ⟨k2, -, hk2⟩ := hi2
    have e1 : j / max 1 (rows.length / 150) = k1 := by
      refine Nat.div_eq_of_lt_le (by omega) ?_
      rw [Nat.succ_mul]
      omega
    have e2 : j / max 1 (rows.length / 150) = k2 := by
      refine Nat.div_eq_of_lt_le (by omega) ?_
      rw [Nat.succ_mul]
      omega
    rw [← hk1, ← hk2, ← e1, ← e2]
  · intro i
    rfl

/-- Witness for c9_hpfp_flag: actuals 2000 then 1000 psi give a 50% worst
drop at row 1 (at or above the Risk threshold), and the point whose
window contains row 1 is flagged. -/
theorem c9_hpfp_flag_witness :
    worstHpfpIdx rowsC10tail colsC10 = some 1 ∧ 1 < rowsC10tail.length ∧
    ((mkChartPoint rowsC10tail colsC10 false .psi
        (max 1 (rowsC10tail.length / 150)) (getAfrThresholds none) []
        (worstHpfpIdx rowsC10tail colsC10) 1).isHpfpWarning = true
      ↔ (1 ≤ 1 ∧ 1 < 1 + max 1 (rowsC10tail.length / 150))) :=
  ⟨by decide, by decide,
   (c9_hpfp_flag rowsC10tail colsC10 false .psi (getAfrThresholds none) [] 1
      (by decide) (by decide)).1 1 (by decide)⟩

/-- Rows for the C9 counterexample: a 5% worst drop, below the Risk
threshold. -/
def rowsC9 : List Row := [[("hp", some 2000)], [("hp", some 1900)]]

/-- C9 is false as stated: the worst HPFP drop of this file is 5% at
row 1, yet no chart point is flagged isHpfpWarning — the flag is only set
when the worst drop reaches the 20% Risk threshold, which the claim does
not allow for. -/
theorem c9_counterexample :
    colsC10.hpfp = some "hp" ∧
    (worstHpfpScan rowsC9 colsC10 (chartHpfpPeak rowsC9 colsC10)).1 = 5 ∧
    (worstHpfpScan rowsC9 colsC10 (chartHpfpPeak rowsC9 colsC10)).2 = some 1 ∧
    (buildChartData rowsC9 colsC10 false .psi 150 (getAfrThresholds none) []).map
        (fun p => p.isHpfpWarning) = [false, false] := by
  exact ⟨rfl, by decide, by decide, by decide⟩

end Ethos
